import Mathlib

/-!
Verification of the ReqRev browser extension's host-page integration
controller against its specification.

The development shallowly embeds the extension's DOM-facing layer:

* `Tab` models one host navigation tab link (an `a.UnderlineNav-item`
  element together with its wrapping `li`): its class list, ARIA
  attributes, whether it is the extension's own Requirements tab (the
  element with id `reqrev-tab` / `data-tab-item="reqrev-requirements"`),
  and whether its text contains "Pull requests".
* `Dom` models the live document: the optional navigation widget with its
  tab list, the optional panel container (by its class list) and the
  visibility of GitHub's own content region.
* `St` models the whole page instance: the document, the PanelManager's
  tab-enforcement interval handle, the queue of scheduled one-shot
  callbacks (animation frames and timeouts), the number of connected
  MutationObservers created by `watchGitHubTabs`, and the extension
  runtime context validity flag read by `isExtensionContextValid`.

Every operation is translated from the TypeScript source
(`PanelManager`, `githubDOM`, `tabInjection`, `githubNavigation`,
`githubPermissions`, `contentScript`).
-/

namespace ReqRev

/-- CSS class marking the panel container as hidden (`CSS_CLASSES.PANEL_HIDDEN`). -/
def PANEL_HIDDEN : String := "reqrev-panel-hidden"

/-- CSS class marking the panel container as visible (`CSS_CLASSES.PANEL_VISIBLE`). -/
def PANEL_VISIBLE : String := "reqrev-panel-visible"

/-- CSS class marking a navigation tab as selected (`CSS_CLASSES.TAB_SELECTED`). -/
def TAB_SELECTED : String := "selected"

/-- Class string given to the injected tab link (`CSS_CLASSES.UNDERLINE_NAV_ITEM`). -/
def UNDERLINE_NAV_ITEM : String :=
  "UnderlineNav-item hx_underlinenav-item no-wrap js-responsive-underlinenav-item"

/-- Base class string `resetTabState` assigns to a tab's `className`. -/
def baseNavClassName : String :=
  "UnderlineNav-item no-wrap js-responsive-underlinenav-item js-selected-navigation-item"

/-- Top-level routes excluded from repository detection (`EXCLUDED_GITHUB_PAGES`). -/
def EXCLUDED_GITHUB_PAGES : List String :=
  ["settings", "notifications", "explore", "marketplace"]

/-- `TIMING.INJECTION_RETRY_INTERVAL` (milliseconds). -/
def INJECTION_RETRY_INTERVAL : Nat := 500

/-- `TIMING.MAX_INJECTION_ATTEMPTS`. -/
def MAX_INJECTION_ATTEMPTS : Nat := 10

/-- `TIMING.TAB_ENFORCEMENT_INTERVAL` (milliseconds). -/
def TAB_ENFORCEMENT_INTERVAL : Nat := 100

/-- `TIMING.PANEL_CREATION_DELAY` (milliseconds). -/
def PANEL_CREATION_DELAY : Nat := 100

/-- `TIMING.TAB_RESET_DELAY` (milliseconds). -/
def TAB_RESET_DELAY : Nat := 100

/-- `TIMING.NAVIGATION_REINIT_DELAY` (milliseconds). -/
def NAVIGATION_REINIT_DELAY : Nat := 500

/-- One host navigation tab link. `isReqrev` marks the extension's own tab
(id `reqrev-tab`, link attribute `data-tab-item="reqrev-requirements"`);
`prText` records whether the tab's text content contains "Pull requests". -/
structure Tab where
  isReqrev : Bool
  prText : Bool
  classes : List String
  ariaSelected : Option String
  ariaCurrent : Option String
deriving DecidableEq

/-- The live document, as far as the controller touches it. -/
structure Dom where
  navBar : Option (List Tab)
  panel : Option (List String)
  contentHidden : Bool
deriving DecidableEq

/-- Scheduled one-shot callbacks. `resetTabs` is the closure scheduled by
`deactivateAllGitHubTabs`; `deferredShow` the delayed show scheduled by
`toggle` after creating the panel. -/
inductive Callback where
  | resetTabs : Callback
  | deferredShow : Callback
deriving DecidableEq

/-- A pending scheduled callback: either an animation frame request or a
timeout with its delay in milliseconds. -/
inductive Pending where
  | animFrame : Callback → Pending
  | timeout : Nat → Callback → Pending
deriving DecidableEq

/-- State of one page instance: the document plus the PanelManager's
interval handle, the queue of scheduled callbacks, the number of
MutationObservers connected by `watchGitHubTabs`, whether the React root
is mounted, and the extension runtime context validity. -/
structure St where
  dom : Dom
  tabEnforcementInterval : Option Nat
  nextTimerId : Nat
  pending : List Pending
  observerCount : Nat
  rootMounted : Bool
  contextValid : Bool
deriving DecidableEq

/-- `isExtensionContextValid` (utils/extensionContext.ts): reads the
extension runtime identity; modelled as the environment flag. -/
def isExtensionContextValid (s : St) : Bool := s.contextValid

/-- Split a character list at spaces (auxiliary for `classTokens`). -/
def splitTokensAux : List Char → List Char → List String
  | [], acc => [String.mk acc.reverse]
  | c :: cs, acc =>
    if c = ' ' then String.mk acc.reverse :: splitTokensAux cs []
    else splitTokensAux cs (c :: acc)

/-- DOM semantics of assigning `className`: the resulting `classList` is
the space-separated token list of the assigned string. -/
def classTokens (s : String) : List String :=
  splitTokensAux s.data []

/-- DOM `classList.remove`. -/
def classListRemove (cs : List String) (c : String) : List String :=
  cs.filter (fun x => x ≠ c)

/-- DOM `classList.add`: appends the token when absent. -/
def classListAdd (cs : List String) (c : String) : List String :=
  if c ∈ cs then cs else cs ++ [c]

/-- Index of the first tab satisfying `p` (models `querySelector` /
pointer identity of the first matching element). -/
def firstIdxWhere (p : Tab → Bool) : List Tab → Option Nat
  | [] => none
  | t :: ts => if p t then some 0 else (firstIdxWhere p ts).map (fun i => i + 1)

/-- Apply `f` to each tab together with its index, starting at `i`. -/
def mapIdxFrom (f : Nat → Tab → Tab) : Nat → List Tab → List Tab
  | _, [] => []
  | i, t :: ts => f i t :: mapIdxFrom f (i + 1) ts

/-- Apply `f` to each tab together with its index (models a `forEach`
over a static NodeList while mutating elements in place). -/
def mapTabs (f : Nat → Tab → Tab) (tabs : List Tab) : List Tab :=
  mapIdxFrom f 0 tabs

/-! ### DOM accessors and mutators (utils/githubDOM.ts) -/

/-- `getAllNavTabs`: all `a.UnderlineNav-item` links of the navigation
widget, or null when the widget is absent. -/
def getAllNavTabs (d : Dom) : Option (List Tab) := d.navBar

/-- `getPanelContainer`: the panel container (its class list), if present. -/
def getPanelContainer (d : Dom) : Option (List String) := d.panel

/-- `requirementsTabExists`: whether the element with id `reqrev-tab` exists. -/
def requirementsTabExists (d : Dom) : Bool :=
  match d.navBar with
  | some tabs => tabs.any (fun t => t.isReqrev)
  | none => false

/-- `getRequirementsTabLink` as an element identity: the index in the
navigation widget of the first link inside the `reqrev-tab` element. -/
def reqTabIdx (tabs : List Tab) : Option Nat :=
  firstIdxWhere (fun t => t.isReqrev) tabs

/-- `resetTabState`: sets `aria-selected="false"`, removes the selected
class, removes `aria-current`, then assigns the canonical base
`className`. -/
def resetTabState (t : Tab) : Tab :=
  let t1 := { t with ariaSelected := some "false" }
  let t2 := { t1 with classes := classListRemove t1.classes TAB_SELECTED }
  let t3 := { t2 with ariaCurrent := none }
  { t3 with classes := classTokens baseNavClassName }

/-- `setTabSelected`. -/
def setTabSelected (t : Tab) (selected : Bool) : Tab :=
  if selected then
    { t with ariaSelected := some "true", classes := classListAdd t.classes TAB_SELECTED }
  else
    { t with ariaSelected := some "false", classes := classListRemove t.classes TAB_SELECTED }

/-- `hideGitHubContent`: hides GitHub's own content region. -/
def hideGitHubContent (d : Dom) : Dom := { d with contentHidden := true }

/-- `showGitHubContent`: restores GitHub's own content region. -/
def showGitHubContent (d : Dom) : Dom := { d with contentHidden := false }

/-- Replace the navigation widget's tab list (the in-place element
mutations performed by a loop over the tabs). -/
def setNavBar (s : St) (nb : Option (List Tab)) : St :=
  { s with dom := { s.dom with navBar := nb } }

/-- The `resetTabs` closure body of `deactivateAllGitHubTabs`: reset every
tab other than (the first occurrence of) the Requirements tab link; when
that link is null, every tab is reset. -/
def resetTabsExceptReqrev (tabs : List Tab) : List Tab :=
  match reqTabIdx tabs with
  | some r => mapTabs (fun j t => if j = r then t else resetTabState t) tabs
  | none => tabs.map resetTabState

/-! ### PanelManager (utils/PanelManager.ts) -/

namespace PanelManager

/-- `createPanel`: no-op when the container already exists, otherwise
creates the container with class `PANEL_HIDDEN` and mounts the React UI. -/
def createPanel (s : St) : St :=
  match s.dom.panel with
  | some _ => s
  | none =>
    { s with
        dom := { s.dom with panel := some (classTokens PANEL_HIDDEN) },
        rootMounted := true }

/-- `enforceTabState`: one tick of the reconciliation loop. When the panel
container exists, the Requirements tab link exists and the container
carries the visible marker, resets every other tab and re-selects the
Requirements tab if it lost the selected class. -/
def enforceTabState (s : St) : St :=
  match s.dom.panel, s.dom.navBar with
  | some cs, some tabs =>
    match reqTabIdx tabs with
    | some r =>
      if cs.contains PANEL_VISIBLE then
        let tabs2 := mapTabs (fun j t => if j = r then t else resetTabState t) tabs
        let tabs3 :=
          match tabs2[r]? with
          | some t =>
            if t.classes.contains TAB_SELECTED then tabs2
            else mapTabs (fun j u => if j = r then setTabSelected u true else u) tabs2
          | none => tabs2
        setNavBar s (some tabs3)
      else s
    | none => s
  | _, _ => s

/-- `stopTabEnforcement`. -/
def stopTabEnforcement (s : St) : St :=
  match s.tabEnforcementInterval with
  | some _ => { s with tabEnforcementInterval := none }
  | none => s

/-- `startTabEnforcement`: stops any previous interval, applies one
enforcement tick synchronously, then installs a fresh interval. -/
def startTabEnforcement (s : St) : St :=
  let s1 := stopTabEnforcement s
  let s2 := enforceTabState s1
  { s2 with
      tabEnforcementInterval := some s2.nextTimerId,
      nextTimerId := s2.nextTimerId + 1 }

/-- `deactivateAllGitHubTabs`: applies the `resetTabs` closure once
synchronously and schedules it again on the next animation frame and
after `TAB_RESET_DELAY` milliseconds. -/
def deactivateAllGitHubTabs (s : St) : St :=
  match s.dom.navBar with
  | none => s
  | some tabs =>
    let s1 := setNavBar s (some (resetTabsExceptReqrev tabs))
    { s1 with
        pending := s1.pending ++
          [Pending.animFrame Callback.resetTabs,
           Pending.timeout TAB_RESET_DELAY Callback.resetTabs] }

/-- `updateTabStates`: when the Requirements tab link exists, set or clear
its selected state and, when activating, hide GitHub's content and
deactivate all other tabs; when deactivating, restore GitHub's content. -/
def updateTabStates (active : Bool) (s : St) : St :=
  match s.dom.navBar with
  | some tabs =>
    match reqTabIdx tabs with
    | some r =>
      let s1 := setNavBar s
        (some (mapTabs (fun j t => if j = r then setTabSelected t active else t) tabs))
      if active then
        deactivateAllGitHubTabs { s1 with dom := hideGitHubContent s1.dom }
      else
        { s1 with dom := showGitHubContent s1.dom }
    | none => s
  | none => s

/-- `show`: no-op without a container; otherwise swaps the hidden marker
for the visible marker, updates tab states and starts enforcement. -/
def showPanel (s : St) : St :=
  match s.dom.panel with
  | none => s
  | some cs =>
    let cs2 := classListAdd (classListRemove cs PANEL_HIDDEN) PANEL_VISIBLE
    let s1 := { s with dom := { s.dom with panel := some cs2 } }
    startTabEnforcement (updateTabStates true s1)

/-- `hide`: no-op without a container; otherwise swaps the visible marker
for the hidden marker, updates tab states and stops enforcement. -/
def hidePanel (s : St) : St :=
  match s.dom.panel with
  | none => s
  | some cs =>
    let cs2 := classListAdd (classListRemove cs PANEL_VISIBLE) PANEL_HIDDEN
    let s1 := { s with dom := { s.dom with panel := some cs2 } }
    stopTabEnforcement (updateTabStates false s1)

/-- `toggle`: without a container, creates one and schedules a deferred
show after `PANEL_CREATION_DELAY`; with one, flips on the hidden marker. -/
def toggle (s : St) : St :=
  match s.dom.panel with
  | none =>
    let s1 := createPanel s
    { s1 with pending := s1.pending ++ [Pending.timeout PANEL_CREATION_DELAY Callback.deferredShow] }
  | some cs =>
    if cs.contains PANEL_HIDDEN then showPanel s else hidePanel s

/-- `watchGitHubTabs`: when the navigation widget exists, connects a
MutationObserver to its tab links. No code path ever disconnects it. -/
def watchGitHubTabs (s : St) : St :=
  match s.dom.navBar with
  | none => s
  | some _ => { s with observerCount := s.observerCount + 1 }

/-- `handleGitHubTabClick`: hides the panel when it is visible. -/
def handleGitHubTabClick (s : St) : St :=
  match s.dom.panel with
  | some cs => if cs.contains PANEL_VISIBLE then hidePanel s else s
  | none => s

/-- `handleOtherTabActivation` on the mutation target at index `i`:
while the panel is visible, forces a non-Requirements tab that carries
the selected class back to the base state. -/
def handleOtherTabActivation (i : Nat) (s : St) : St :=
  match s.dom.navBar, s.dom.panel with
  | some tabs, some cs =>
    match reqTabIdx tabs, tabs[i]? with
    | some r, some t =>
      if cs.contains PANEL_VISIBLE && !(i == r) && t.classes.contains TAB_SELECTED then
        setNavBar s (some (mapTabs (fun j u => if j = i then resetTabState u else u) tabs))
      else s
    | _, _ => s
  | _, _ => s

/-- The MutationObserver callback of `watchGitHubTabs` processing one
class-attribute mutation record whose target is the tab at index `i`. -/
def observerOnClassMutation (i : Nat) (s : St) : St :=
  match s.dom.navBar with
  | some tabs =>
    match tabs[i]? with
    | some t =>
      let s1 :=
        if t.classes.contains TAB_SELECTED && !t.isReqrev then handleGitHubTabClick s else s
      handleOtherTabActivation i s1
    | none => s
  | none => s

/-- `remove`: stops enforcement, removes the panel container, drops the
React root. -/
def remove (s : St) : St :=
  let s1 := stopTabEnforcement s
  let s2 :=
    match s1.dom.panel with
    | some _ => { s1 with dom := { s1.dom with panel := none } }
    | none => s1
  { s2 with rootMounted := false }

end PanelManager

/-- Run a scheduled callback against the current document. -/
def runCallback (c : Callback) (s : St) : St :=
  match c with
  | Callback.resetTabs =>
    match s.dom.navBar with
    | some tabs => setNavBar s (some (resetTabsExceptReqrev tabs))
    | none => s
  | Callback.deferredShow =>
    match s.dom.panel with
    | some _ => PanelManager.showPanel s
    | none => s

/-! ### Tab injection (utils/tabInjection.ts) -/

/-- `createTabElement`: the injected `li#reqrev-tab` with its link. -/
def createTabElement : Tab :=
  { isReqrev := true,
    prText := false,
    classes := classTokens UNDERLINE_NAV_ITEM,
    ariaSelected := some "false",
    ariaCurrent := none }

/-- `findPullRequestsTab`: the first navigation child whose link text
contains "Pull requests". -/
def findPullRequestsTabIdx (tabs : List Tab) : Option Nat :=
  firstIdxWhere (fun t => t.prText) tabs

/-- `injectTab`: false when the navigation widget is absent; true without
inserting when the tab already exists; otherwise inserts the new tab
right after the Pull requests tab when that has a next sibling, else
appends it at the end. -/
def injectTab (s : St) : St × Bool :=
  match s.dom.navBar with
  | none => (s, false)
  | some tabs =>
    if requirementsTabExists s.dom then (s, true)
    else
      let newTabs :=
        match findPullRequestsTabIdx tabs with
        | some i =>
          if i + 1 < tabs.length then
            tabs.take (i + 1) ++ [createTabElement] ++ tabs.drop (i + 1)
          else tabs ++ [createTabElement]
        | none => tabs ++ [createTabElement]
      (setNavBar s (some newTabs), true)

/-- Remove the first tab with id `reqrev-tab` (`getElementById` followed
by `Element.remove`). -/
def eraseFirstReqrev : List Tab → List Tab
  | [] => []
  | t :: ts => if t.isReqrev then ts else t :: eraseFirstReqrev ts

/-- `removeTab`: deletes the injected tab element if present. -/
def removeTab (s : St) : St :=
  match s.dom.navBar with
  | some tabs => setNavBar s (some (eraseFirstReqrev tabs))
  | none => s

/-! ### Navigation locator (utils/githubNavigation.ts) -/

/-- Longest prefix of non-slash characters and the rest (the greedy
`[^/]+` of the shared pathname regular expression). -/
def segSpan : List Char → List Char × List Char
  | [] => ([], [])
  | c :: cs =>
    if c = '/' then ([], c :: cs)
    else
      let p := segSpan cs
      (c :: p.1, p.2)

/-- The regular expression match shared by `isRepoPage`,
`getRepoIdentifier` and `parseRepoInfo` (a match of
`^\/([^\/]+)\/([^\/]+)` against the pathname): a leading slash followed
by two non-empty slash-free segments, ignoring any remainder. -/
def matchRepoPath (path : String) : Option (String × String) :=
  match path.data with
  | '/' :: rest =>
    let p1 := segSpan rest
    if p1.1 = [] then none
    else
      match p1.2 with
      | '/' :: rest2 =>
        let p2 := segSpan rest2
        if p2.1 = [] then none
        else some (String.mk p1.1, String.mk p2.1)
      | _ => none
  | _ => none

/-- `isRepoPage`: the pathname matches and the first segment is not an
excluded top-level route. -/
def isRepoPage (path : String) : Bool :=
  match matchRepoPath path with
  | none => false
  | some (org, _) => !(EXCLUDED_GITHUB_PAGES.contains org)

/-- `getRepoIdentifier`: the `"org/repo"` string whenever the pathname
matches; performs no exclusion check. -/
def getRepoIdentifier (path : String) : Option String :=
  match matchRepoPath path with
  | none => none
  | some (org, repo) => some (org ++ "/" ++ repo)

/-- `RepoInfo` (utils/githubNavigation.ts). -/
structure RepoInfo where
  org : String
  repo : String
  fullPath : String
deriving DecidableEq

/-- `parseRepoInfo`: structured parse; null on mismatch or exclusion. -/
def parseRepoInfo (path : String) : Option RepoInfo :=
  match matchRepoPath path with
  | none => none
  | some (org, repo) =>
    if EXCLUDED_GITHUB_PAGES.contains org then none
    else some { org := org, repo := repo, fullPath := org ++ "/" ++ repo }

/-! ### Permissions (utils/githubPermissions.ts) -/

/-- `RepoPermissions` as returned by `checkRepoPermissions`; the network
and DOM probes are inputs of the embedding. -/
structure RepoPermissions where
  hasAccess : Bool
  level : String
  isOwner : Bool
  isCollaborator : Bool
deriving DecidableEq

/-- The decision tail of `shouldShowRequirementsTab`: show the tab when
the user is owner, collaborator, or has admin or write level. -/
def shouldShowRequirementsTab (p : RepoPermissions) : Bool :=
  p.isOwner || p.isCollaborator || p.level == "admin" || p.level == "write"

/-! ### Content script controller (contentScript.tsx) -/

/-- Global state of the content script: the page state plus the module
globals `panelManager`, `lastUrl`, `lastRepoId`, and flags recording that
`attemptInjection` was started by `init` and that a re-initialization was
scheduled by the navigation handler. -/
structure ContentState where
  st : St
  panelManagerExists : Bool
  pmRepoId : Option String
  lastUrl : String
  lastRepoId : Option String
  injectionStarted : Bool
  reinitScheduled : Bool
deriving DecidableEq

/-- `init`: aborts when the extension context is invalid, when the page
is not a repository page, when the identifier cannot be resolved, or when
the permission check denies access; otherwise constructs the
PanelManager and begins the injection retry loop. -/
def init (path : String) (perms : RepoPermissions) (c : ContentState) : ContentState :=
  if !(isExtensionContextValid c.st) then c
  else if !(isRepoPage path) then c
  else
    match getRepoIdentifier path, parseRepoInfo path with
    | some rid, some _ =>
      if !(shouldShowRequirementsTab perms) then c
      else
        { c with
            panelManagerExists := true,
            pmRepoId := some rid,
            injectionStarted := true }
    | _, _ => c

/-- Effects of a successful injection attempt: inject the tab, then
create the panel and start the host-tab watcher. -/
def afterSuccessfulInjection (s : St) : St :=
  let p := injectTab s
  if p.2 then PanelManager.watchGitHubTabs (PanelManager.createPanel p.1) else p.1

/-- Result of the injection retry loop: the attempt number that finished
it, the resulting page state on success, and the list of retry delays
that were scheduled along the way. -/
inductive InjectionResult where
  | success : Nat → St → List Nat → InjectionResult
  | failure : Nat → List Nat → InjectionResult
deriving DecidableEq

/-- The `tryInject` recursion of `attemptInjection`. `dseq n` is the page
state observed by attempt number `n` (the host SPA mutates the document
between attempts); `pm` is whether the `panelManager` global is set.
When the navigation widget is present the attempt succeeds and nothing
further is scheduled; otherwise a retry is scheduled after
`INJECTION_RETRY_INTERVAL` as long as fewer than
`MAX_INJECTION_ATTEMPTS` attempts have run. -/
def tryInject (dseq : Nat → St) (pm : Bool) (attempt : Nat) (delays : List Nat) :
    InjectionResult :=
  if ((dseq attempt).dom.navBar).isSome && pm then
    InjectionResult.success attempt (afterSuccessfulInjection (dseq attempt)) delays
  else if attempt < MAX_INJECTION_ATTEMPTS then
    tryInject dseq pm (attempt + 1) (delays ++ [INJECTION_RETRY_INTERVAL])
  else
    InjectionResult.failure attempt delays
termination_by MAX_INJECTION_ATTEMPTS - attempt
decreasing_by simp [MAX_INJECTION_ATTEMPTS] at *; omega

/-- `attemptInjection`: the retry loop started at attempt number 1. -/
def attemptInjection (dseq : Nat → St) (pm : Bool) : InjectionResult :=
  tryInject dseq pm 1 []

/-- One firing of the navigation MutationObserver callback of
`handleNavigation`, given the current `location.href` and pathname. -/
def handleNavigationTick (currentUrl : String) (path : String) (c : ContentState) :
    ContentState :=
  if currentUrl = c.lastUrl then c
  else
    let c1 := { c with lastUrl := currentUrl }
    let currentRepoId := getRepoIdentifier path
    if currentRepoId = c1.lastRepoId then c1
    else
      let c2 := { c1 with lastRepoId := currentRepoId }
      let c3 :=
        if c2.panelManagerExists then
          { c2 with
              st := PanelManager.remove c2.st,
              panelManagerExists := false,
              pmRepoId := none }
        else c2
      let c4 := { c3 with st := removeTab c3.st }
      if isRepoPage path then { c4 with reinitScheduled := true } else c4

/-- Teardown path of the controller on a repository change:
`panelManager.remove()` followed by `removeTab()`. -/
def navigationTeardown (s : St) : St :=
  removeTab (PanelManager.remove s)

/-! ### Concrete sample states -/

/-- A host navigation tab currently in GitHub's selected state. -/
def tabCode : Tab :=
  { isReqrev := false, prText := false,
    classes := ["UnderlineNav-item", "selected"],
    ariaSelected := some "true", ariaCurrent := some "page" }

/-- The host's Pull requests tab. -/
def tabPulls : Tab :=
  { isReqrev := false, prText := true,
    classes := ["UnderlineNav-item"],
    ariaSelected := some "false", ariaCurrent := none }

/-- A freshly loaded page: navigation widget present, no injected
elements, valid extension context. -/
def stBase : St :=
  { dom := { navBar := some [tabCode, tabPulls], panel := none, contentHidden := false },
    tabEnforcementInterval := none, nextTimerId := 0, pending := [],
    observerCount := 0, rootMounted := false, contextValid := true }

/-- A page whose extension context has been invalidated and where no
panel container exists. -/
def stInvalidCtx : St :=
  { dom := { navBar := some [tabCode, tabPulls, createTabElement], panel := none,
             contentHidden := false },
    tabEnforcementInterval := none, nextTimerId := 0, pending := [],
    observerCount := 1, rootMounted := false, contextValid := false }

/-- A fully initialized page with the tab injected, the panel visible,
the enforcement interval running and the watcher's observer connected. -/
def stActive : St :=
  PanelManager.watchGitHubTabs
    { dom := { navBar := some [tabCode, tabPulls, createTabElement],
               panel := some [PANEL_VISIBLE], contentHidden := true },
      tabEnforcementInterval := some 0, nextTimerId := 1, pending := [],
      observerCount := 0, rootMounted := true, contextValid := true }

/-- Permissions of a user with no access. -/
def permsNone : RepoPermissions :=
  { hasAccess := false, level := "none", isOwner := false, isCollaborator := false }

/-- Permissions of a repository owner. -/
def permsAdmin : RepoPermissions :=
  { hasAccess := true, level := "admin", isOwner := true, isCollaborator := false }

/-- Content-script state before any injection. -/
def cs0 : ContentState :=
  { st := stBase, panelManagerExists := false, pmRepoId := none,
    lastUrl := "https://github.com/octocat/hello", lastRepoId := some "octocat/hello",
    injectionStarted := false, reinitScheduled := false }

/-- Content-script state of a fully initialized page. -/
def csActive : ContentState :=
  { st := stActive, panelManagerExists := true, pmRepoId := some "octocat/hello",
    lastUrl := "https://github.com/octocat/hello", lastRepoId := some "octocat/hello",
    injectionStarted := true, reinitScheduled := false }

/-- The visibility/class invariant that the spec states for the panel
container: exactly one of the two marker classes is present. -/
def panelClassInvariant (cls : List String) : Prop :=
  (PANEL_HIDDEN ∈ cls ∧ PANEL_VISIBLE ∉ cls) ∨
  (PANEL_VISIBLE ∈ cls ∧ PANEL_HIDDEN ∉ cls)

/-- The panel container exists and satisfies the marker invariant. -/
def panelStateInv (s : St) : Prop :=
  ∃ cls, s.dom.panel = some cls ∧ panelClassInvariant cls

/-- States reachable after `createPanel()` has run on a panel-free page,
by any sequence of panel-lifecycle operations: `createPanel`, `show`,
`hide`, `toggle`, reconciliation ticks, scheduled callbacks and
mutation-observer callbacks. -/
inductive ReachableFromCreate : St → Prop where
  | base (s : St) (h : s.dom.panel = none) :
      ReachableFromCreate (PanelManager.createPanel s)
  | createStep {s : St} :
      ReachableFromCreate s → ReachableFromCreate (PanelManager.createPanel s)
  | showStep {s : St} :
      ReachableFromCreate s → ReachableFromCreate (PanelManager.showPanel s)
  | hideStep {s : St} :
      ReachableFromCreate s → ReachableFromCreate (PanelManager.hidePanel s)
  | toggleStep {s : St} :
      ReachableFromCreate s → ReachableFromCreate (PanelManager.toggle s)
  | enforceStep {s : St} :
      ReachableFromCreate s → ReachableFromCreate (PanelManager.enforceTabState s)
  | callbackStep (c : Callback) {s : St} :
      ReachableFromCreate s → ReachableFromCreate (runCallback c s)
  | observeStep (i : Nat) {s : St} :
      ReachableFromCreate s → ReachableFromCreate (PanelManager.observerOnClassMutation i s)

/-- Page state with the navigation widget not yet rendered. -/
def stNoNav : St :=
  { dom := { navBar := none, panel := none, contentHidden := false },
    tabEnforcementInterval := none, nextTimerId := 0, pending := [],
    observerCount := 0, rootMounted := false, contextValid := true }

/-- Host render sequence where the navigation widget appears at the
second attempt. -/
def dseqSample : Nat → St := fun n => if n = 1 then stNoNav else stBase

theorem mapIdxFrom_length (f : Nat → Tab → Tab) (l : List Tab) :
    ∀ i, (mapIdxFrom f i l).length = l.length := by
  induction l with
  | nil => intro i; rfl
  | cons t ts ih => intro i; simp [mapIdxFrom, ih]

theorem mapIdxFrom_getElem? (f : Nat → Tab → Tab) (l : List Tab) :
    ∀ i j, (mapIdxFrom f i l)[j]? = (l[j]?).map (fun t => f (i + j) t) := by
  induction l with
  | nil => intro i j; simp [mapIdxFrom]
  | cons t ts ih =>
    intro i j
    cases j with
    | zero => simp [mapIdxFrom]
    | succ j =>
      have h := ih (i + 1) j
      simp only [mapIdxFrom, List.getElem?_cons_succ, h]
      have : i + 1 + j = i + (j + 1) := by omega
      rw [this]

theorem mapTabs_length (f : Nat → Tab → Tab) (l : List Tab) :
    (mapTabs f l).length = l.length :=
  mapIdxFrom_length f l 0

theorem mapTabs_getElem? (f : Nat → Tab → Tab) (l : List Tab) (j : Nat) :
    (mapTabs f l)[j]? = (l[j]?).map (fun t => f j t) := by
  have h := mapIdxFrom_getElem? f l 0 j
  simpa [mapTabs] using h

theorem firstIdxWhere_getElem? (p : Tab → Bool) :
    ∀ (l : List Tab) (r : Nat), firstIdxWhere p l = some r →
      ∃ t, l[r]? = some t ∧ p t = true := by
  intro l
  induction l with
  | nil => intro r h; simp [firstIdxWhere] at h
  | cons t ts ih =>
    intro r h
    by_cases hp : p t
    · simp [firstIdxWhere, hp] at h
      subst h
      exact ⟨t, by simp, hp⟩
    · simp [firstIdxWhere, hp] at h
      obtain ⟨i, hi, rfl⟩ := h
      obtain ⟨u, hu, hpu⟩ := ih i hi
      exact ⟨u, by simpa using hu, hpu⟩

/-! ### Helper lemmas about class lists and tab mutators -/

theorem contains_iff_mem (cs : List String) (c : String) :
    cs.contains c = true ↔ c ∈ cs := by
  simp [List.contains]

theorem mem_classListAdd_self (cs : List String) (c : String) :
    c ∈ classListAdd cs c := by
  unfold classListAdd
  split
  · assumption
  · simp

theorem mem_classListAdd_iff (cs : List String) (c x : String) :
    x ∈ classListAdd cs c ↔ x ∈ cs ∨ x = c := by
  unfold classListAdd
  split
  · rename_i h
    constructor
    · exact fun hx => Or.inl hx
    · rintro (hx | rfl)
      · exact hx
      · exact h
  · simp

theorem mem_classListRemove_iff (cs : List String) (c x : String) :
    x ∈ classListRemove cs c ↔ x ∈ cs ∧ x ≠ c := by
  simp [classListRemove]

theorem baseNavClassName_splitOn :
    classTokens baseNavClassName =
      ["UnderlineNav-item", "no-wrap", "js-responsive-underlinenav-item",
       "js-selected-navigation-item"] := by
  decide

theorem resetTabState_classes (t : Tab) :
    (resetTabState t).classes = classTokens baseNavClassName := rfl

theorem resetTabState_not_selected (t : Tab) :
    (resetTabState t).classes.contains TAB_SELECTED = false := by
  rw [resetTabState_classes]
  decide

theorem resetTabState_isReqrev (t : Tab) :
    (resetTabState t).isReqrev = t.isReqrev := rfl

theorem resetTabState_ariaSelected (t : Tab) :
    (resetTabState t).ariaSelected = some "false" := rfl

theorem resetTabState_ariaCurrent (t : Tab) :
    (resetTabState t).ariaCurrent = none := rfl

theorem setTabSelected_true_selected (t : Tab) :
    (setTabSelected t true).classes.contains TAB_SELECTED = true := by
  rw [contains_iff_mem]
  simp only [setTabSelected, if_pos rfl]
  exact mem_classListAdd_self t.classes TAB_SELECTED

theorem setTabSelected_isReqrev (t : Tab) (b : Bool) :
    (setTabSelected t b).isReqrev = t.isReqrev := by
  unfold setTabSelected
  split <;> rfl

theorem not_mem_resetTabState_selected (t : Tab) :
    TAB_SELECTED ∉ (resetTabState t).classes := by
  intro h
  have := (contains_iff_mem _ _).2 h
  rw [resetTabState_not_selected t] at this
  cases this

theorem mem_setTabSelected_true_selected (t : Tab) :
    TAB_SELECTED ∈ (setTabSelected t true).classes := by
  simp only [setTabSelected, if_pos rfl]
  exact mem_classListAdd_self t.classes TAB_SELECTED

/-! ### Frame lemmas: which fields each operation leaves untouched -/

theorem setNavBar_panel (s : St) (nb : Option (List Tab)) :
    (setNavBar s nb).dom.panel = s.dom.panel := rfl

theorem setNavBar_pending (s : St) (nb : Option (List Tab)) :
    (setNavBar s nb).pending = s.pending := rfl

theorem enforceTabState_panel (s : St) :
    (PanelManager.enforceTabState s).dom.panel = s.dom.panel := by
  unfold PanelManager.enforceTabState
  split
  · split
    · split
      · rfl
      · rfl
    · rfl
  · rfl

theorem enforceTabState_pending (s : St) :
    (PanelManager.enforceTabState s).pending = s.pending := by
  unfold PanelManager.enforceTabState
  split
  · split
    · split
      · rfl
      · rfl
    · rfl
  · rfl

theorem stopTabEnforcement_dom (s : St) :
    (PanelManager.stopTabEnforcement s).dom = s.dom := by
  unfold PanelManager.stopTabEnforcement
  split <;> rfl

theorem stopTabEnforcement_pending (s : St) :
    (PanelManager.stopTabEnforcement s).pending = s.pending := by
  unfold PanelManager.stopTabEnforcement
  split <;> rfl

theorem startTabEnforcement_panel (s : St) :
    (PanelManager.startTabEnforcement s).dom.panel = s.dom.panel := by
  unfold PanelManager.startTabEnforcement
  simp only [enforceTabState_panel]
  rw [show (PanelManager.stopTabEnforcement s).dom = s.dom from stopTabEnforcement_dom s]

theorem startTabEnforcement_pending (s : St) :
    (PanelManager.startTabEnforcement s).pending = s.pending := by
  unfold PanelManager.startTabEnforcement
  simp only [enforceTabState_pending, stopTabEnforcement_pending]

theorem deactivateAllGitHubTabs_panel (s : St) :
    (PanelManager.deactivateAllGitHubTabs s).dom.panel = s.dom.panel := by
  unfold PanelManager.deactivateAllGitHubTabs
  split
  · rfl
  · rfl

theorem updateTabStates_panel (b : Bool) (s : St) :
    (PanelManager.updateTabStates b s).dom.panel = s.dom.panel := by
  unfold PanelManager.updateTabStates
  split
  · split
    · split
      · simp only [deactivateAllGitHubTabs_panel]; rfl
      · rfl
    · rfl
  · rfl

theorem handleOtherTabActivation_panel (i : Nat) (s : St) :
    (PanelManager.handleOtherTabActivation i s).dom.panel = s.dom.panel := by
  unfold PanelManager.handleOtherTabActivation
  split
  · split
    · split
      · rfl
      · rfl
    · rfl
  · rfl

theorem classTokens_PANEL_HIDDEN : classTokens PANEL_HIDDEN = [PANEL_HIDDEN] := by
  decide

/-! ### Claim C5 -/

/-- Claim C5 counterexample: on the pathname `/settings/profile` the page
is not a managed page (`isRepoPage` is false, `settings` being in the
exclusion set), yet `getRepoIdentifier` does not return null — it
returns `"settings/profile"`. -/
theorem c5_counterexample :
    isRepoPage "/settings/profile" = false ∧
    getRepoIdentifier "/settings/profile" = some "settings/profile" := by
  decide

/-- Claim C5 (amended): `getRepoIdentifier` returns `"segment1/segment2"`
whenever the pathname matches the two-segment pattern — with no exclusion
check — and null exactly when the pathname does not match; on managed
pages this agrees with `parseRepoInfo`, while for an excluded first
segment the page is not managed yet the identifier is still returned. -/
theorem c5_repo_identifier (path : String) :
    (isRepoPage path = true →
      ∃ org repo, matchRepoPath path = some (org, repo) ∧
        getRepoIdentifier path = some (org ++ "/" ++ repo) ∧
        EXCLUDED_GITHUB_PAGES.contains org = false ∧
        parseRepoInfo path =
          some { org := org, repo := repo, fullPath := org ++ "/" ++ repo }) ∧
    (matchRepoPath path = none →
      getRepoIdentifier path = none ∧ isRepoPage path = false ∧
      parseRepoInfo path = none) ∧
    (∀ org repo, matchRepoPath path = some (org, repo) →
      EXCLUDED_GITHUB_PAGES.contains org = true →
      getRepoIdentifier path = some (org ++ "/" ++ repo) ∧
      isRepoPage path = false ∧ parseRepoInfo path = none) := by
  rcases h : matchRepoPath path with _ | ⟨org, repo⟩
  · refine ⟨?_, ?_, ?_⟩
    · intro hrp
      simp [isRepoPage, h] at hrp
    · intro _
      simp [getRepoIdentifier, isRepoPage, parseRepoInfo, h]
    · intro org repo hm
      simp [h] at hm
  · refine ⟨?_, ?_, ?_⟩
    · intro hrp
      refine ⟨org, repo, rfl, ?_, ?_, ?_⟩
      · simp [getRepoIdentifier, h]
      · simp [isRepoPage, h] at hrp
        simpa using hrp
      · simp [isRepoPage, h] at hrp
        simp [parseRepoInfo, h, hrp]
    · intro hm
      simp [h] at hm
    · intro org2 repo2 hm hex
      have hp : (org, repo) = (org2, repo2) := Option.some.inj hm
      injection hp with h1 h2
      subst h1
      subst h2
      have hmem : org ∈ EXCLUDED_GITHUB_PAGES := (contains_iff_mem _ _).1 hex
      refine ⟨by simp [getRepoIdentifier, h], ?_, ?_⟩
      · simp [isRepoPage, h, hmem]
      · simp [parseRepoInfo, h, hmem]

/-- Claim C5 witness: a concrete managed pathname. -/
theorem c5_repo_identifier_witness :
    ∃ org repo, matchRepoPath "/octocat/hello" = some (org, repo) ∧
      getRepoIdentifier "/octocat/hello" = some (org ++ "/" ++ repo) ∧
      EXCLUDED_GITHUB_PAGES.contains org = false ∧
      parseRepoInfo "/octocat/hello" =
        some { org := org, repo := repo, fullPath := org ++ "/" ++ repo } :=
  (c5_repo_identifier "/octocat/hello").1 (by decide)

/-! ### Claim C3 -/

/-- Claim C3 counterexample: with the extension-context validity check
returning false and no panel container present, `toggle()` does create a
panel container in the DOM (a hidden one), contradicting the claim that
no panel is created. -/
theorem c3_counterexample :
    isExtensionContextValid stInvalidCtx = false ∧
    stInvalidCtx.dom.panel = none ∧
    (PanelManager.toggle stInvalidCtx).dom.panel = some [PANEL_HIDDEN] := by
  decide

/-- Claim C3 (amended): `toggle()` never consults the context-validity
check and never throws (it is a total function of the page state): when
no panel exists it creates the hidden panel container and schedules the
deferred show, even when the validity check returns false. -/
theorem c3_toggle_ignores_context (s : St)
    (_hctx : isExtensionContextValid s = false)
    (hp : s.dom.panel = none) :
    (PanelManager.toggle s).dom.panel = some [PANEL_HIDDEN] ∧
    (PanelManager.toggle s).pending =
      s.pending ++ [Pending.timeout PANEL_CREATION_DELAY Callback.deferredShow] := by
  unfold PanelManager.toggle PanelManager.createPanel
  rw [hp]
  exact ⟨by simp [classTokens_PANEL_HIDDEN], by simp⟩

/-- Claim C3 witness: the amended behaviour at the concrete invalidated
state. -/
theorem c3_toggle_ignores_context_witness :
    (PanelManager.toggle stInvalidCtx).dom.panel = some [PANEL_HIDDEN] ∧
    (PanelManager.toggle stInvalidCtx).pending =
      stInvalidCtx.pending ++ [Pending.timeout PANEL_CREATION_DELAY Callback.deferredShow] :=
  c3_toggle_ignores_context stInvalidCtx (by decide) (by decide)

/-! ### Shared facts about `injectTab` -/

theorem injectTab_of_exists (s : St) (h : requirementsTabExists s.dom = true) :
    injectTab s = (s, true) := by
  unfold injectTab
  rcases hn : s.dom.navBar with _ | tabs
  · rw [requirementsTabExists, hn] at h
    cases h
  · simp [h]

theorem injectTab_spec (s : St) (tabs : List Tab) (hn : s.dom.navBar = some tabs) :
    (injectTab s).2 = true ∧
    (requirementsTabExists s.dom = true → (injectTab s).1 = s) ∧
    (requirementsTabExists s.dom = false →
      ∃ tabs2, (injectTab s).1 = setNavBar s (some tabs2) ∧
        tabs2.countP (fun t => t.isReqrev) = tabs.countP (fun t => t.isReqrev) + 1 ∧
        tabs2.any (fun t => t.isReqrev) = true) := by
  rcases hre : requirementsTabExists s.dom with _ | _
  · unfold injectTab
    rw [hn, hre]
    dsimp only
    rw [if_neg (by simp : ¬(false = true))]
    refine ⟨rfl, ?_, ?_⟩
    · intro h
      cases h
    intro _
    rcases hf : findPullRequestsTabIdx tabs with _ | i
    · refine ⟨tabs ++ [createTabElement], by simp [hf], ?_, ?_⟩
      · simp [createTabElement]
      · simp [createTabElement]
    · by_cases hlen : i + 1 < tabs.length
      · refine ⟨tabs.take (i + 1) ++ [createTabElement] ++ tabs.drop (i + 1),
          by simp [hf, hlen], ?_, ?_⟩
        · have hsplit : tabs.countP (fun t => t.isReqrev) =
              (tabs.take (i + 1)).countP (fun t => t.isReqrev) +
              (tabs.drop (i + 1)).countP (fun t => t.isReqrev) := by
            conv_lhs => rw [← List.take_append_drop (i + 1) tabs]
            rw [List.countP_append]
          rw [hsplit]
          simp [createTabElement]
          omega
        · simp [createTabElement]
      · refine ⟨tabs ++ [createTabElement], by simp [hf, hlen], ?_, ?_⟩
        · simp [createTabElement]
        · simp [createTabElement]
  · have he := injectTab_of_exists s hre
    rw [he]
    exact ⟨rfl, fun _ => rfl, fun h => by cases h⟩

/-! ### Claim C6 -/

/-- Claim C6: tab injection is idempotent. When the extension's tab
already exists, `injectTab` returns true without touching the state; and
from any state with a present navigation bar (holding at most one copy of
the tab, as DOM ids are unique), two consecutive calls return true, the
second changes nothing, and afterwards exactly one Requirements tab is in
the navigation bar. -/
theorem c6_injection_idempotent :
    (∀ s, requirementsTabExists s.dom = true → injectTab s = (s, true)) ∧
    (∀ s tabs, s.dom.navBar = some tabs →
      tabs.countP (fun t => t.isReqrev) ≤ 1 →
      (injectTab s).2 = true ∧
      injectTab (injectTab s).1 = ((injectTab s).1, true) ∧
      ∃ tabs2, (injectTab (injectTab s).1).1.dom.navBar = some tabs2 ∧
        tabs2.countP (fun t => t.isReqrev) = 1) := by
  constructor
  · exact injectTab_of_exists
  · intro s tabs hn hcnt
    obtain ⟨h2, hkeep, hnew⟩ := injectTab_spec s tabs hn
    rcases hre : requirementsTabExists s.dom with _ | _
    · obtain ⟨tabs2, hst, hc, hany⟩ := hnew hre
      have hexists2 : requirementsTabExists (injectTab s).1.dom = true := by
        rw [hst]
        simpa [requirementsTabExists, setNavBar] using hany
      have hsecond := injectTab_of_exists (injectTab s).1 hexists2
      refine ⟨h2, hsecond, tabs2, ?_, ?_⟩
      · rw [hsecond]
        simp [hst, setNavBar]
      · have hz : tabs.countP (fun t => t.isReqrev) = 0 := by
          rw [requirementsTabExists, hn] at hre
          have := List.any_eq_false.mp (by simpa using hre)
          rw [List.countP_eq_zero]
          intro a ha
          simpa using this a ha
        omega
    · have hfst := hkeep hre
      have hone : tabs.countP (fun t => t.isReqrev) = 1 := by
        rw [requirementsTabExists, hn] at hre
        obtain ⟨a, ha, hpa⟩ := List.any_eq_true.mp hre
        have : 0 < tabs.countP (fun t => t.isReqrev) :=
          List.countP_pos_iff.mpr ⟨a, ha, hpa⟩
        omega
      have hsecond := injectTab_of_exists (injectTab s).1 (by rw [hfst]; exact hre)
      refine ⟨h2, hsecond, tabs, ?_, hone⟩
      rw [hsecond, hfst]
      exact hn

/-- Claim C6 witness: double injection on the fresh page yields exactly
one Requirements tab. -/
theorem c6_injection_idempotent_witness :
    (injectTab stBase).2 = true ∧
    injectTab (injectTab stBase).1 = ((injectTab stBase).1, true) ∧
    ∃ tabs2, (injectTab (injectTab stBase).1).1.dom.navBar = some tabs2 ∧
      tabs2.countP (fun t => t.isReqrev) = 1 :=
  c6_injection_idempotent.2 stBase [tabCode, tabPulls] (by decide) (by decide)

theorem updateTabStates_true_pending (s : St) (tabs : List Tab) (r : Nat)
    (hn : s.dom.navBar = some tabs) (hr : reqTabIdx tabs = some r) :
    (PanelManager.updateTabStates true s).pending =
      s.pending ++ [Pending.animFrame Callback.resetTabs,
                    Pending.timeout TAB_RESET_DELAY Callback.resetTabs] := by
  unfold PanelManager.updateTabStates
  rw [hn]
  dsimp only
  rw [hr]
  rfl

/-! ### Claim C7 -/

/-- Claim C7: when the panel transitions to Visible (via `show` with the
container, the navigation widget and the Requirements link present),
host-tab deactivation is applied once synchronously and scheduled
exactly twice more — on the next animation frame and after the fixed
`TAB_RESET_DELAY` timeout; `deactivateAllGitHubTabs` itself performs the
synchronous application and enqueues those two, each scheduled firing
performs the identical `resetTabs` operation, and that operation resets
every host tab except the extension's own to the base class state. -/
theorem c7_triple_deactivation (s : St) (cs : List String) (tabs : List Tab) (r : Nat)
    (hp : s.dom.panel = some cs) (hn : s.dom.navBar = some tabs)
    (hr : reqTabIdx tabs = some r) :
    (PanelManager.showPanel s).pending =
      s.pending ++ [Pending.animFrame Callback.resetTabs,
                    Pending.timeout TAB_RESET_DELAY Callback.resetTabs] ∧
    (∀ w tabsw, w.dom.navBar = some tabsw →
      (PanelManager.deactivateAllGitHubTabs w).dom.navBar =
          some (resetTabsExceptReqrev tabsw) ∧
      (PanelManager.deactivateAllGitHubTabs w).pending =
        w.pending ++ [Pending.animFrame Callback.resetTabs,
                      Pending.timeout TAB_RESET_DELAY Callback.resetTabs] ∧
      (runCallback Callback.resetTabs w).dom.navBar =
          some (resetTabsExceptReqrev tabsw) ∧
      (runCallback Callback.resetTabs w).pending = w.pending) ∧
    (∀ tabsw r2, reqTabIdx tabsw = some r2 →
      ∀ j t, tabsw[j]? = some t →
        (j ≠ r2 → (resetTabsExceptReqrev tabsw)[j]? = some (resetTabState t)) ∧
        (j = r2 → (resetTabsExceptReqrev tabsw)[j]? = some t)) := by
  refine ⟨?_, ?_, ?_⟩
  · unfold PanelManager.showPanel
    rw [hp]
    dsimp only
    rw [startTabEnforcement_pending]
    exact updateTabStates_true_pending _ tabs r hn hr
  · intro w tabsw hw
    unfold PanelManager.deactivateAllGitHubTabs runCallback
    rw [hw]
    dsimp only
    exact ⟨rfl, rfl, rfl, rfl⟩
  · intro tabsw r2 hr2 j t hjt
    unfold resetTabsExceptReqrev
    rw [hr2]
    constructor
    · intro hne
      rw [mapTabs_getElem?, hjt]
      simp [hne]
    · intro heq
      rw [mapTabs_getElem?, hjt]
      simp [heq]

/-- Claim C7 witness: the scheduling equation at the concrete active
page state. -/
theorem c7_triple_deactivation_witness :
    (PanelManager.showPanel stActive).pending =
      stActive.pending ++ [Pending.animFrame Callback.resetTabs,
                           Pending.timeout TAB_RESET_DELAY Callback.resetTabs] :=
  (c7_triple_deactivation stActive [PANEL_VISIBLE] [tabCode, tabPulls, createTabElement] 2
    (by decide) (by decide) (by decide)).1

theorem eraseFirstReqrev_none :
    ∀ tabs : List Tab, tabs.countP (fun t => t.isReqrev) ≤ 1 →
      (eraseFirstReqrev tabs).any (fun t => t.isReqrev) = false := by
  intro tabs
  induction tabs with
  | nil => intro _; rfl
  | cons t ts ih =>
    intro h
    rcases hti : t.isReqrev with _ | _
    · rw [List.countP_cons_of_neg _ _ (by simp [hti])] at h
      simp [eraseFirstReqrev, hti, ih h]
    · rw [List.countP_cons_of_pos _ _ (by simp [hti])] at h
      have hz : ts.countP (fun t => t.isReqrev) = 0 := by omega
      simp only [eraseFirstReqrev, hti, if_pos]
      rw [List.any_eq_false]
      intro a ha
      have := List.countP_eq_zero.mp hz a ha
      simpa using this

theorem createPanel_panel_none (s : St) (h : s.dom.panel = none) :
    (PanelManager.createPanel s).dom.panel = some [PANEL_HIDDEN] := by
  unfold PanelManager.createPanel
  rw [h]
  dsimp only
  rw [classTokens_PANEL_HIDDEN]

theorem createPanel_of_some (s : St) (cls : List String) (h : s.dom.panel = some cls) :
    PanelManager.createPanel s = s := by
  unfold PanelManager.createPanel
  rw [h]

theorem showPanel_panel (s : St) (cls : List String) (h : s.dom.panel = some cls) :
    (PanelManager.showPanel s).dom.panel =
      some (classListAdd (classListRemove cls PANEL_HIDDEN) PANEL_VISIBLE) := by
  unfold PanelManager.showPanel
  rw [h]
  dsimp only
  rw [startTabEnforcement_panel, updateTabStates_panel]

theorem hidePanel_panel (s : St) (cls : List String) (h : s.dom.panel = some cls) :
    (PanelManager.hidePanel s).dom.panel =
      some (classListAdd (classListRemove cls PANEL_VISIBLE) PANEL_HIDDEN) := by
  unfold PanelManager.hidePanel
  rw [h]
  dsimp only
  rw [stopTabEnforcement_dom, updateTabStates_panel]

theorem hidden_ne_visible : PANEL_HIDDEN ≠ PANEL_VISIBLE := by decide

theorem panelClassInvariant_afterShow (cls : List String) :
    panelClassInvariant (classListAdd (classListRemove cls PANEL_HIDDEN) PANEL_VISIBLE) := by
  right
  constructor
  · exact mem_classListAdd_self _ _
  · intro h
    rcases (mem_classListAdd_iff _ _ _).1 h with h1 | h2
    · exact ((mem_classListRemove_iff _ _ _).1 h1).2 rfl
    · exact hidden_ne_visible h2

theorem panelClassInvariant_afterHide (cls : List String) :
    panelClassInvariant (classListAdd (classListRemove cls PANEL_VISIBLE) PANEL_HIDDEN) := by
  left
  constructor
  · exact mem_classListAdd_self _ _
  · intro h
    rcases (mem_classListAdd_iff _ _ _).1 h with h1 | h2
    · exact ((mem_classListRemove_iff _ _ _).1 h1).2 rfl
    · exact hidden_ne_visible h2.symm

theorem panelStateInv_congr {a b : St} (h : a.dom.panel = b.dom.panel)
    (hb : panelStateInv b) : panelStateInv a := by
  obtain ⟨cls, hc, hi⟩ := hb
  exact ⟨cls, by rw [h, hc], hi⟩

theorem panelStateInv_showPanel {s : St} (h : panelStateInv s) :
    panelStateInv (PanelManager.showPanel s) := by
  obtain ⟨cls, hc, _⟩ := h
  exact ⟨_, showPanel_panel s cls hc, panelClassInvariant_afterShow cls⟩

theorem panelStateInv_hidePanel {s : St} (h : panelStateInv s) :
    panelStateInv (PanelManager.hidePanel s) := by
  obtain ⟨cls, hc, _⟩ := h
  exact ⟨_, hidePanel_panel s cls hc, panelClassInvariant_afterHide cls⟩

theorem runCallback_resetTabs_panel (s : St) :
    (runCallback Callback.resetTabs s).dom.panel = s.dom.panel := by
  unfold runCallback
  rcases h : s.dom.navBar with _ | tabs
  · rfl
  · rfl

theorem panelStateInv_handleGitHubTabClick {s : St} (h : panelStateInv s) :
    panelStateInv (PanelManager.handleGitHubTabClick s) := by
  obtain ⟨cls, hc, hi⟩ := h
  unfold PanelManager.handleGitHubTabClick
  rw [hc]
  dsimp only
  by_cases hv : cls.contains PANEL_VISIBLE = true
  · rw [if_pos hv]
    exact panelStateInv_hidePanel ⟨cls, hc, hi⟩
  · rw [if_neg hv]
    exact ⟨cls, hc, hi⟩

theorem panelStateInv_observe {s : St} (i : Nat) (h : panelStateInv s) :
    panelStateInv (PanelManager.observerOnClassMutation i s) := by
  unfold PanelManager.observerOnClassMutation
  rcases hn : s.dom.navBar with _ | tabs
  · exact h
  · dsimp only
    rcases hi : tabs[i]? with _ | t
    · exact h
    · dsimp only
      have h1 : panelStateInv
          (if (t.classes.contains TAB_SELECTED && !t.isReqrev) = true then
            PanelManager.handleGitHubTabClick s else s) := by
        by_cases hb : (t.classes.contains TAB_SELECTED && !t.isReqrev) = true
        · rw [if_pos hb]
          exact panelStateInv_handleGitHubTabClick h
        · rw [if_neg hb]
          exact h
      exact panelStateInv_congr (handleOtherTabActivation_panel i _) h1

theorem handleGitHubTabClick_no_panel (s : St) (h : s.dom.panel = none) :
    PanelManager.handleGitHubTabClick s = s := by
  unfold PanelManager.handleGitHubTabClick
  rw [h]

theorem handleOtherTabActivation_no_panel (i : Nat) (s : St) (h : s.dom.panel = none) :
    PanelManager.handleOtherTabActivation i s = s := by
  unfold PanelManager.handleOtherTabActivation
  rcases hnb : s.dom.navBar with _ | tb
  · rfl
  · rw [h]

theorem remove_eq (s : St) :
    PanelManager.remove s =
      { s with dom := { s.dom with panel := none },
               tabEnforcementInterval := none, rootMounted := false } := by
  unfold PanelManager.remove PanelManager.stopTabEnforcement
  rcases s with ⟨⟨nb, pn, ch⟩, ti, ni, pd, oc, rm, cv⟩
  rcases ti with _ | i <;> rcases pn with _ | cls <;> rfl

theorem navigationTeardown_eq (s : St) (tabs : List Tab) (hn : s.dom.navBar = some tabs) :
    navigationTeardown s =
      { s with dom := { s.dom with navBar := some (eraseFirstReqrev tabs), panel := none },
               tabEnforcementInterval := none, rootMounted := false } := by
  unfold navigationTeardown
  rw [remove_eq]
  unfold removeTab
  dsimp only
  rw [hn]
  rfl

/-! ### Claim C4 -/

/-- Claim C4 counterexample: at the concrete fully initialized page with
one connected MutationObserver, running the teardown path
(`remove()` followed by `removeTab()`) leaves the observer connected —
no code in the repository ever disconnects it — refuting the claim that
teardown disconnects the observer started by `watchGitHubTabs()`. -/
theorem c4_counterexample :
    stActive.observerCount = 1 ∧
    (navigationTeardown stActive).observerCount = 1 := by
  decide

/-- Claim C4 (amended): after the teardown path runs, the panel container
and the tab element are absent and the tab-enforcement interval is
cancelled; the mutation observer started by `watchGitHubTabs()` remains
connected, but neither it nor an enforcement tick performs any further
DOM change: every observer callback and every enforcement tick on the
torn-down state is the identity. -/
theorem c4_teardown (s : St) (tabs : List Tab)
    (hn : s.dom.navBar = some tabs)
    (hwf : tabs.countP (fun t => t.isReqrev) ≤ 1) :
    (navigationTeardown s).dom.panel = none ∧
    (navigationTeardown s).tabEnforcementInterval = none ∧
    requirementsTabExists (navigationTeardown s).dom = false ∧
    (navigationTeardown s).observerCount = s.observerCount ∧
    (∀ i, PanelManager.observerOnClassMutation i (navigationTeardown s) =
      navigationTeardown s) ∧
    PanelManager.enforceTabState (navigationTeardown s) = navigationTeardown s := by
  rw [navigationTeardown_eq s tabs hn]
  refine ⟨rfl, rfl, ?_, rfl, ?_, ?_⟩
  · rw [requirementsTabExists]
    exact eraseFirstReqrev_none tabs hwf
  · intro i
    unfold PanelManager.observerOnClassMutation
    dsimp only
    rcases hi : (eraseFirstReqrev tabs)[i]? with _ | t
    · rfl
    · dsimp only
      rw [handleGitHubTabClick_no_panel _ rfl, ite_self]
      exact handleOtherTabActivation_no_panel i _ rfl
  · unfold PanelManager.enforceTabState
    rfl

/-- Claim C4 witness: the amended teardown guarantees at the concrete
active page. -/
theorem c4_teardown_witness :
    (navigationTeardown stActive).dom.panel = none ∧
    (navigationTeardown stActive).tabEnforcementInterval = none ∧
    requirementsTabExists (navigationTeardown stActive).dom = false ∧
    (navigationTeardown stActive).observerCount = stActive.observerCount ∧
    (∀ i, PanelManager.observerOnClassMutation i (navigationTeardown stActive) =
      navigationTeardown stActive) ∧
    PanelManager.enforceTabState (navigationTeardown stActive) =
      navigationTeardown stActive :=
  c4_teardown stActive [tabCode, tabPulls, createTabElement] (by decide) (by decide)

theorem requirementsTabExists_congr {a b : Dom} (h : a.navBar = b.navBar) :
    requirementsTabExists a = requirementsTabExists b := by
  unfold requirementsTabExists
  rw [h]

theorem createPanel_navBar (w : St) :
    (PanelManager.createPanel w).dom.navBar = w.dom.navBar := by
  unfold PanelManager.createPanel
  split <;> rfl

theorem createPanel_observerCount (w : St) :
    (PanelManager.createPanel w).observerCount = w.observerCount := by
  unfold PanelManager.createPanel
  split <;> rfl

theorem createPanel_panel_isSome (w : St) :
    ((PanelManager.createPanel w).dom.panel).isSome = true := by
  unfold PanelManager.createPanel
  rcases h : w.dom.panel with _ | cls
  · rfl
  · dsimp only
    rw [h]
    rfl

theorem watchGitHubTabs_dom (w : St) :
    (PanelManager.watchGitHubTabs w).dom = w.dom := by
  unfold PanelManager.watchGitHubTabs
  split <;> rfl

theorem watchGitHubTabs_observerCount (w : St) (tabs : List Tab)
    (h : w.dom.navBar = some tabs) :
    (PanelManager.watchGitHubTabs w).observerCount = w.observerCount + 1 := by
  unfold PanelManager.watchGitHubTabs
  rw [h]

theorem afterSuccessfulInjection_spec (s : St) (tabs : List Tab)
    (hn : s.dom.navBar = some tabs) :
    requirementsTabExists (afterSuccessfulInjection s).dom = true ∧
    ((afterSuccessfulInjection s).dom.panel).isSome = true ∧
    0 < (afterSuccessfulInjection s).observerCount := by
  obtain ⟨h2, hkeep, hnew⟩ := injectTab_spec s tabs hn
  have hmain : ∃ tabs2, (injectTab s).1.dom.navBar = some tabs2 ∧
      requirementsTabExists (injectTab s).1.dom = true := by
    rcases hre : requirementsTabExists s.dom with _ | _
    · obtain ⟨tabs2, hst, _, hany⟩ := hnew hre
      refine ⟨tabs2, by rw [hst]; rfl, ?_⟩
      rw [hst]
      show (match (some tabs2 : Option (List Tab)) with
        | some tabs => tabs.any (fun t => t.isReqrev)
        | none => false) = true
      exact hany
    · rw [hkeep hre]
      exact ⟨tabs, hn, hre⟩
  obtain ⟨tabs2, hnav2, hreq2⟩ := hmain
  unfold afterSuccessfulInjection
  dsimp only
  rw [h2, if_pos rfl]
  refine ⟨?_, ?_, ?_⟩
  · rw [requirementsTabExists_congr (congrArg Dom.navBar (watchGitHubTabs_dom _)),
      requirementsTabExists_congr (createPanel_navBar _)]
    exact hreq2
  · rw [watchGitHubTabs_dom]
    exact createPanel_panel_isSome _
  · rw [watchGitHubTabs_observerCount _ tabs2 (by rw [createPanel_navBar]; exact hnav2)]
    omega

theorem tryInject_failure (dseq : Nat → St) :
    ∀ k attempt delays,
      MAX_INJECTION_ATTEMPTS - attempt ≤ k →
      1 ≤ attempt → attempt ≤ MAX_INJECTION_ATTEMPTS →
      (∀ m, attempt ≤ m → m ≤ MAX_INJECTION_ATTEMPTS → (dseq m).dom.navBar = none) →
      tryInject dseq true attempt delays =
        InjectionResult.failure MAX_INJECTION_ATTEMPTS
          (delays ++ List.replicate (MAX_INJECTION_ATTEMPTS - attempt)
            INJECTION_RETRY_INTERVAL) := by
  have hM : MAX_INJECTION_ATTEMPTS = 10 := rfl
  intro k
  induction k with
  | zero =>
    intro attempt delays hk h1 h10 hnone
    have ha : attempt = MAX_INJECTION_ATTEMPTS := by omega
    subst ha
    unfold tryInject
    rw [hnone _ le_rfl le_rfl]
    rw [if_neg (by simp)]
    rw [if_neg (by omega)]
    rw [Nat.sub_self]
    simp
  | succ k ih =>
    intro attempt delays hk h1 h10 hnone
    unfold tryInject
    rw [hnone attempt le_rfl h10]
    rw [if_neg (by simp)]
    by_cases hlt : attempt < MAX_INJECTION_ATTEMPTS
    · rw [if_pos hlt]
      rw [ih (attempt + 1) (delays ++ [INJECTION_RETRY_INTERVAL]) (by omega) (by omega)
        (by omega) (fun m hm1 hm2 => hnone m (by omega) hm2)]
      congr 1
      rw [List.append_assoc]
      congr 1
      have h2 : MAX_INJECTION_ATTEMPTS - attempt =
          (MAX_INJECTION_ATTEMPTS - (attempt + 1)) + 1 := by omega
      rw [h2, List.replicate_succ]
      rfl
    · rw [if_neg hlt]
      have ha : attempt = MAX_INJECTION_ATTEMPTS := by omega
      subst ha
      rw [Nat.sub_self]
      simp

theorem tryInject_success (dseq : Nat → St) :
    ∀ k attempt delays n st ds,
      MAX_INJECTION_ATTEMPTS - attempt ≤ k →
      attempt ≤ MAX_INJECTION_ATTEMPTS →
      tryInject dseq true attempt delays = InjectionResult.success n st ds →
      attempt ≤ n ∧ n ≤ MAX_INJECTION_ATTEMPTS ∧
      ((dseq n).dom.navBar).isSome = true ∧
      (∀ m, attempt ≤ m → m < n → (dseq m).dom.navBar = none) ∧
      ds = delays ++ List.replicate (n - attempt) INJECTION_RETRY_INTERVAL ∧
      st = afterSuccessfulInjection (dseq n) := by
  intro k
  induction k with
  | zero =>
    intro attempt delays n st ds hk h10 hsucc
    have ha : attempt = MAX_INJECTION_ATTEMPTS := by omega
    subst ha
    unfold tryInject at hsucc
    rcases hnb : ((dseq MAX_INJECTION_ATTEMPTS).dom.navBar).isSome with _ | _
    · rw [hnb] at hsucc
      rw [if_neg (by simp)] at hsucc
      rw [if_neg (by omega)] at hsucc
      cases hsucc
    · rw [hnb] at hsucc
      rw [if_pos (by simp)] at hsucc
      injection hsucc with e1 e2 e3
      subst e1
      subst e2
      subst e3
      refine ⟨le_rfl, le_rfl, hnb, ?_, by rw [Nat.sub_self]; simp, rfl⟩
      intro m hm1 hm2
      omega
  | succ k ih =>
    intro attempt delays n st ds hk h10 hsucc
    unfold tryInject at hsucc
    rcases hnb : ((dseq attempt).dom.navBar).isSome with _ | _
    · rw [hnb] at hsucc
      rw [if_neg (by simp)] at hsucc
      by_cases hlt : attempt < MAX_INJECTION_ATTEMPTS
      · rw [if_pos hlt] at hsucc
        obtain ⟨ha1, ha2, ha3, ha4, ha5, ha6⟩ :=
          ih (attempt + 1) (delays ++ [INJECTION_RETRY_INTERVAL]) n st ds
            (by omega) (by omega) hsucc
        refine ⟨by omega, ha2, ha3, ?_, ?_, ha6⟩
        · intro m hm1 hm2
          by_cases hme : m = attempt
          · subst hme
            exact Option.not_isSome_iff_eq_none.mp (by simp [hnb])
          · exact ha4 m (by omega) hm2
        · rw [ha5, List.append_assoc]
          congr 1
          have h2 : n - attempt = (n - (attempt + 1)) + 1 := by omega
          rw [h2, List.replicate_succ]
          rfl
      · rw [if_neg hlt] at hsucc
        cases hsucc
    · rw [hnb] at hsucc
      rw [if_pos (by simp)] at hsucc
      injection hsucc with e1 e2 e3
      subst e1
      subst e2
      subst e3
      refine ⟨le_rfl, h10, hnb, ?_, by rw [Nat.sub_self]; simp, rfl⟩
      intro m hm1 hm2
      omega

/-! ### Claim C9 -/

/-- Claim C9: the injection retry loop makes at most
`MAX_INJECTION_ATTEMPTS` (10) attempts, each retry scheduled at the fixed
`INJECTION_RETRY_INTERVAL`; on the first attempt that finds the
navigation widget it injects the tab, creates the panel, starts the
host-tab watcher, and schedules no further retry (exactly `n - 1` retry
delays were ever scheduled); if no attempt finds the widget, the loop
ends in failure at attempt 10 after exactly 9 scheduled retries and
never retries again. -/
theorem c9_injection_retry (dseq : Nat → St) :
    (∀ n st ds, attemptInjection dseq true = InjectionResult.success n st ds →
      1 ≤ n ∧ n ≤ MAX_INJECTION_ATTEMPTS ∧
      ((dseq n).dom.navBar).isSome = true ∧
      (∀ m, 1 ≤ m → m < n → (dseq m).dom.navBar = none) ∧
      ds = List.replicate (n - 1) INJECTION_RETRY_INTERVAL ∧
      st = afterSuccessfulInjection (dseq n) ∧
      requirementsTabExists st.dom = true ∧
      (st.dom.panel).isSome = true ∧
      0 < st.observerCount) ∧
    ((∀ m, 1 ≤ m → m ≤ MAX_INJECTION_ATTEMPTS → (dseq m).dom.navBar = none) →
      attemptInjection dseq true =
        InjectionResult.failure MAX_INJECTION_ATTEMPTS
          (List.replicate (MAX_INJECTION_ATTEMPTS - 1) INJECTION_RETRY_INTERVAL)) := by
  constructor
  · intro n st ds hsucc
    obtain ⟨ha1, ha2, ha3, ha4, ha5, ha6⟩ :=
      tryInject_success dseq (MAX_INJECTION_ATTEMPTS - 1) 1 [] n st ds
        (by omega) (by decide) hsucc
    obtain ⟨tabsn, htabsn⟩ := Option.isSome_iff_exists.mp ha3
    obtain ⟨hb1, hb2, hb3⟩ := afterSuccessfulInjection_spec (dseq n) tabsn htabsn
    exact ⟨ha1, ha2, ha3, ha4, by simpa using ha5, ha6,
      by rw [ha6]; exact hb1, by rw [ha6]; exact hb2, by rw [ha6]; exact hb3⟩
  · intro hnone
    have := tryInject_failure dseq (MAX_INJECTION_ATTEMPTS - 1) 1 []
      (by omega) le_rfl (by decide) (fun m hm1 hm2 => hnone m hm1 hm2)
    rw [attemptInjection, this]
    simp

/-- Claim C9 witness: on the sample render sequence the loop succeeds at
attempt 2 with one scheduled retry, and the success state has the tab,
the panel and the watcher. -/
theorem c9_injection_retry_witness :
    1 ≤ 2 ∧ 2 ≤ MAX_INJECTION_ATTEMPTS ∧
    ((dseqSample 2).dom.navBar).isSome = true ∧
    (∀ m, 1 ≤ m → m < 2 → (dseqSample m).dom.navBar = none) ∧
    [INJECTION_RETRY_INTERVAL] =
      List.replicate (2 - 1) INJECTION_RETRY_INTERVAL ∧
    afterSuccessfulInjection (dseqSample 2) = afterSuccessfulInjection (dseqSample 2) ∧
    requirementsTabExists (afterSuccessfulInjection (dseqSample 2)).dom = true ∧
    ((afterSuccessfulInjection (dseqSample 2)).dom.panel).isSome = true ∧
    0 < (afterSuccessfulInjection (dseqSample 2)).observerCount :=
  (c9_injection_retry dseqSample).1 2 (afterSuccessfulInjection (dseqSample 2))
    [INJECTION_RETRY_INTERVAL]
    (by
      rw [attemptInjection]
      unfold tryInject
      rw [show (dseqSample 1).dom.navBar = none from rfl]
      rw [if_neg (by simp)]
      rw [if_pos (by decide)]
      unfold tryInject
      rw [show (dseqSample 2).dom.navBar = some [tabCode, tabPulls] from rfl]
      rw [if_pos (by simp)]
      norm_num)

/-! ### Claim C2 -/

/-- Claim C2: after `createPanel()` has run on a panel-free page, every
state reachable by any sequence of panel-lifecycle operations has a
panel container whose class list contains exactly one of the hidden and
visible markers — never both and never neither — and the initial class
list is exactly the hidden marker. -/
theorem c2_panel_class_invariant :
    (∀ s, ReachableFromCreate s → panelStateInv s) ∧
    (∀ s, s.dom.panel = none →
      (PanelManager.createPanel s).dom.panel = some [PANEL_HIDDEN]) := by
  constructor
  · intro s h
    induction h with
    | base s h =>
      refine ⟨[PANEL_HIDDEN], createPanel_panel_none s h, Or.inl ⟨?_, ?_⟩⟩
      · simp
      · intro hmem
        have : PANEL_VISIBLE = PANEL_HIDDEN := by simpa using hmem
        exact hidden_ne_visible this.symm
    | createStep _ ih =>
      obtain ⟨cls, hc, hi⟩ := ih
      rw [createPanel_of_some _ cls hc]
      exact ⟨cls, hc, hi⟩
    | showStep _ ih => exact panelStateInv_showPanel ih
    | hideStep _ ih => exact panelStateInv_hidePanel ih
    | toggleStep _ ih =>
      obtain ⟨cls, hc, hi⟩ := ih
      unfold PanelManager.toggle
      rw [hc]
      dsimp only
      by_cases hh : cls.contains PANEL_HIDDEN = true
      · rw [if_pos hh]
        exact panelStateInv_showPanel ⟨cls, hc, hi⟩
      · rw [if_neg hh]
        exact panelStateInv_hidePanel ⟨cls, hc, hi⟩
    | enforceStep _ ih =>
      exact panelStateInv_congr (enforceTabState_panel _) ih
    | callbackStep c _ ih =>
      rcases c with _ | _
      · exact panelStateInv_congr (runCallback_resetTabs_panel _) ih
      · obtain ⟨cls, hc, hi⟩ := ih
        unfold runCallback
        rw [hc]
        dsimp only
        exact panelStateInv_showPanel ⟨cls, hc, hi⟩
    | observeStep i _ ih => exact panelStateInv_observe i ih
  · exact createPanel_panel_none

/-- Claim C2 witness: the invariant at a concrete reachable state (panel
created on the fresh page, then shown), and the initial hidden marker on
the fresh page. -/
theorem c2_panel_class_invariant_witness :
    panelStateInv (PanelManager.showPanel (PanelManager.createPanel stBase)) ∧
    (PanelManager.createPanel stBase).dom.panel = some [PANEL_HIDDEN] :=
  ⟨c2_panel_class_invariant.1 _
    (ReachableFromCreate.showStep (ReachableFromCreate.base stBase (by decide))),
   c2_panel_class_invariant.2 stBase (by decide)⟩

/-! ### Claim C1 -/

/-- Claim C1: while the panel container carries the visible marker class
and both the navigation widget and the Requirements tab link exist, one
tick of the reconciliation loop (`enforceTabState`) leaves a tab list of
unchanged length in which a tab carries the selected marker exactly when
it is (the first occurrence of) the extension's own Requirements tab;
every other tab equals the result of `resetTabState`, i.e. carries the
base class string with all selection markers cleared. -/
theorem c1_exclusive_selection (s : St) (cs : List String) (tabs : List Tab) (r : Nat)
    (hp : s.dom.panel = some cs)
    (hv : cs.contains PANEL_VISIBLE = true)
    (hn : s.dom.navBar = some tabs)
    (hr : reqTabIdx tabs = some r) :
    ∃ tabs3, (PanelManager.enforceTabState s).dom.navBar = some tabs3 ∧
      tabs3.length = tabs.length ∧
      (∀ j t, tabs3[j]? = some t →
        (t.classes.contains TAB_SELECTED = true ↔ j = r)) ∧
      (∀ t, tabs3[r]? = some t → t.isReqrev = true) ∧
      (∀ j t0, j ≠ r → tabs[j]? = some t0 → tabs3[j]? = some (resetTabState t0)) ∧
      (∀ t0, (resetTabState t0).classes = classTokens baseNavClassName ∧
        (resetTabState t0).classes.contains TAB_SELECTED = false ∧
        (resetTabState t0).ariaSelected = some "false" ∧
        (resetTabState t0).ariaCurrent = none) := by
  obtain ⟨t0, ht0, hreq⟩ := firstIdxWhere_getElem? (fun t => t.isReqrev) tabs r hr
  unfold PanelManager.enforceTabState
  rw [hp, hn]
  dsimp only
  rw [hr]
  dsimp only
  rw [if_pos hv]
  have htabs2r :
      (mapTabs (fun j t => if j = r then t else resetTabState t) tabs)[r]? = some t0 := by
    rw [mapTabs_getElem?, ht0]
    simp
  rw [htabs2r]
  dsimp only
  by_cases hsel : t0.classes.contains TAB_SELECTED = true
  · rw [if_pos hsel]
    refine ⟨_, rfl, ?_, ?_, ?_, ?_, ?_⟩
    · rw [mapTabs_length]
    · intro j t hjt
      rw [mapTabs_getElem?] at hjt
      by_cases hjr : j = r
      · subst hjr
        rw [ht0] at hjt
        simp at hjt
        subst hjt
        simpa using hsel
      · rcases hx : tabs[j]? with _ | u
        · rw [hx] at hjt
          cases hjt
        · rw [hx] at hjt
          simp [hjr] at hjt
          subst hjt
          simp [hjr, not_mem_resetTabState_selected]
    · intro t hrt
      rw [htabs2r] at hrt
      cases hrt
      exact hreq
    · intro j u0 hjr hj
      rw [mapTabs_getElem?, hj]
      simp [hjr]
    · intro u0
      exact ⟨resetTabState_classes u0, resetTabState_not_selected u0,
        resetTabState_ariaSelected u0, resetTabState_ariaCurrent u0⟩
  · rw [if_neg hsel]
    refine ⟨_, rfl, ?_, ?_, ?_, ?_, ?_⟩
    · rw [mapTabs_length, mapTabs_length]
    · intro j t hjt
      rw [mapTabs_getElem?, mapTabs_getElem?] at hjt
      by_cases hjr : j = r
      · subst hjr
        rw [ht0] at hjt
        simp at hjt
        subst hjt
        simp [mem_setTabSelected_true_selected]
      · rcases hx : tabs[j]? with _ | u
        · rw [hx] at hjt
          cases hjt
        · rw [hx] at hjt
          simp [hjr] at hjt
          subst hjt
          simp [hjr, not_mem_resetTabState_selected]
    · intro t hrt
      rw [mapTabs_getElem?, htabs2r] at hrt
      simp at hrt
      subst hrt
      rw [setTabSelected_isReqrev]
      exact hreq
    · intro j u0 hjr hj
      rw [mapTabs_getElem?, mapTabs_getElem?, hj]
      simp [hjr]
    · intro u0
      exact ⟨resetTabState_classes u0, resetTabState_not_selected u0,
        resetTabState_ariaSelected u0, resetTabState_ariaCurrent u0⟩

/-- Claim C1 witness: one enforcement tick on the concrete active page,
where GitHub has meanwhile marked its Code tab as selected, leaves the
Requirements tab as the only selected tab. -/
theorem c1_exclusive_selection_witness :
    ∃ tabs3, (PanelManager.enforceTabState stActive).dom.navBar = some tabs3 ∧
      tabs3.length = ([tabCode, tabPulls, createTabElement] : List Tab).length ∧
      (∀ j t, tabs3[j]? = some t →
        (t.classes.contains TAB_SELECTED = true ↔ j = 2)) ∧
      (∀ t, tabs3[2]? = some t → t.isReqrev = true) ∧
      (∀ j t0, j ≠ 2 → ([tabCode, tabPulls, createTabElement] : List Tab)[j]? = some t0 →
        tabs3[j]? = some (resetTabState t0)) ∧
      (∀ t0, (resetTabState t0).classes = classTokens baseNavClassName ∧
        (resetTabState t0).classes.contains TAB_SELECTED = false ∧
        (resetTabState t0).ariaSelected = some "false" ∧
        (resetTabState t0).ariaCurrent = none) :=
  c1_exclusive_selection stActive [PANEL_VISIBLE] [tabCode, tabPulls, createTabElement] 2
    (by decide) (by decide) (by decide) (by decide)

/-! ### Claim C10 -/

/-- Claim C10: `init()` constructs the panel manager and begins tab
injection only when the repository-permission check grants access: when
`shouldShowRequirementsTab` is false, `init` changes nothing; when the
context is valid, the page is managed and the check passes, `init`
creates the panel manager bound to the page identifier and starts the
injection loop. -/
theorem c10_permission_gate (path : String) (perms : RepoPermissions) (c : ContentState) :
    (shouldShowRequirementsTab perms = false → init path perms c = c) ∧
    (isExtensionContextValid c.st = true → isRepoPage path = true →
      shouldShowRequirementsTab perms = true →
      ∃ rid, getRepoIdentifier path = some rid ∧
        init path perms c =
          { c with panelManagerExists := true, pmRepoId := some rid,
                   injectionStarted := true }) := by
  constructor
  · intro h
    unfold init
    split
    · rfl
    · split
      · rfl
      · split
        · simp [h]
        · rfl
  · intro hctx hrepo hperm
    rcases hm : matchRepoPath path with _ | ⟨org, repo⟩
    · rw [isRepoPage, hm] at hrepo
      cases hrepo
    · have hni : getRepoIdentifier path = some (org ++ "/" ++ repo) := by
        simp [getRepoIdentifier, hm]
      have hnx : EXCLUDED_GITHUB_PAGES.contains org = false := by
        rw [isRepoPage, hm] at hrepo
        simpa using hrepo
      have hnm : org ∉ EXCLUDED_GITHUB_PAGES := by
        intro hmem
        rw [(contains_iff_mem _ _).2 hmem] at hnx
        cases hnx
      have hpi : parseRepoInfo path =
          some { org := org, repo := repo, fullPath := org ++ "/" ++ repo } := by
        simp [parseRepoInfo, hm, hnm]
      refine ⟨org ++ "/" ++ repo, hni, ?_⟩
      unfold init
      rw [hctx, hrepo, hni, hpi]
      simp [hperm]

/-- Claim C10 witness: with owner permissions on a managed page, `init`
constructs the manager; with no permissions it does nothing. -/
theorem c10_permission_gate_witness :
    (init "/octocat/hello" permsNone cs0 = cs0) ∧
    ∃ rid, getRepoIdentifier "/octocat/hello" = some rid ∧
      init "/octocat/hello" permsAdmin cs0 =
        { cs0 with panelManagerExists := true, pmRepoId := some rid,
                   injectionStarted := true } :=
  ⟨(c10_permission_gate "/octocat/hello" permsNone cs0).1 (by decide),
   (c10_permission_gate "/octocat/hello" permsAdmin cs0).2 (by decide) (by decide) (by decide)⟩

/-! ### Claim C8 -/

/-- Claim C8: a URL change with an unchanged repository identity performs
no teardown — the whole content state except `lastUrl` is untouched,
hence the injected tab, the panel container and the panel manager remain;
a URL change to a different identity removes the panel manager and the
tab, and schedules re-initialization exactly when the new page is a
managed page. -/
theorem c8_navigation_frame (url path : String) (c : ContentState) :
    (url ≠ c.lastUrl → getRepoIdentifier path = c.lastRepoId →
      handleNavigationTick url path c = { c with lastUrl := url }) ∧
    (url ≠ c.lastUrl → getRepoIdentifier path ≠ c.lastRepoId →
      c.panelManagerExists = true →
      (handleNavigationTick url path c).panelManagerExists = false ∧
      (handleNavigationTick url path c).pmRepoId = none ∧
      (handleNavigationTick url path c).st = navigationTeardown c.st ∧
      (handleNavigationTick url path c).lastRepoId = getRepoIdentifier path ∧
      (isRepoPage path = true →
        (handleNavigationTick url path c).reinitScheduled = true) ∧
      (isRepoPage path = false →
        (handleNavigationTick url path c).reinitScheduled = c.reinitScheduled)) := by
  constructor
  · intro hne heq
    unfold handleNavigationTick
    rw [if_neg hne]
    simp only []
    rw [if_pos (by simpa using heq)]
  · intro hne hneq hpm
    unfold handleNavigationTick navigationTeardown
    rw [if_neg hne]
    simp only []
    rw [if_neg (by simpa using hneq)]
    simp only [hpm, if_pos]
    rcases hr : isRepoPage path with _ | _
    · simp
    · simp

/-- Claim C8 witness: both branches at concrete inputs — navigating to a
sub-tab of the same repository leaves everything unchanged; navigating to
a different repository tears down and schedules re-initialization. -/
theorem c8_navigation_frame_witness :
    (handleNavigationTick "https://github.com/octocat/hello/issues" "/octocat/hello/issues"
        csActive = { csActive with lastUrl := "https://github.com/octocat/hello/issues" }) ∧
    ((handleNavigationTick "https://github.com/other/repo" "/other/repo"
        csActive).panelManagerExists = false ∧
     (handleNavigationTick "https://github.com/other/repo" "/other/repo"
        csActive).pmRepoId = none ∧
     (handleNavigationTick "https://github.com/other/repo" "/other/repo"
        csActive).st = navigationTeardown csActive.st ∧
     (handleNavigationTick "https://github.com/other/repo" "/other/repo"
        csActive).lastRepoId = getRepoIdentifier "/other/repo" ∧
     (handleNavigationTick "https://github.com/other/repo" "/other/repo"
        csActive).reinitScheduled = true) := by
  constructor
  · exact (c8_navigation_frame "https://github.com/octocat/hello/issues"
      "/octocat/hello/issues" csActive).1 (by decide) (by decide)
  · have h := (c8_navigation_frame "https://github.com/other/repo" "/other/repo"
      csActive).2 (by decide) (by decide) (by decide)
    exact ⟨h.1, h.2.1, h.2.2.1, h.2.2.2.1, h.2.2.2.2.1 (by decide)⟩

end ReqRev

